import Mathlib

/-!
Verification of the orchestration logic of
`doc/examples/modelling/plot_gmsh-example.py`.

The script is straight-line Python with two external process calls, a
try/except on the second one, and a two-branch conditional.  We embed a
run of the module body as a function from an environment (describing how
each external operation behaves: whether it raises, and with which exit
status it returns) to a run result: the ordered trace of observable
effects, the final value of the `gmsh` availability flag, and the
uncaught exception, if any, that escapes the script.
-/

namespace GmshExample

/-- An exception raised by an external operation: either Python's
`OSError` (the only class the script catches) or any other exception,
identified by a tag. -/
inductive PyExc where
  | osError
  | other (tag : String)
  deriving DecidableEq, Repr

/-- Observable effects performed by the module body, in program order:
`subprocess.call` invocations, `print`, `readGmsh`, `pg.show`,
`plt.xlim` / `plt.ylim`, `plt.figure`, `plt.title`. -/
inductive Event where
  | call (args : List String)
  | printMsg (msg : String)
  | readGmsh (fileName : String) (verbose : Bool)
  | showMesh
  | xlim (lo hi : Int)
  | ylim (lo hi : Int)
  | figure
  | title (s : String)
  deriving DecidableEq, Repr

/-- Behaviour of the external world during one run: whether each external
operation raises (and which exception), and the exit statuses the two
`subprocess.call` invocations would return when they do not raise.  The
exit statuses are part of the environment precisely so that we can state
that the script ignores them. -/
structure Env where
  wgetExc : Option PyExc
  wgetExit : Int
  gmshExc : Option PyExc
  gmshExit : Int
  readGmshExc : Option PyExc
  deriving DecidableEq, Repr

/-- Result of one run of the module body: the trace of effects in the
order they occurred, the value of the variable `gmsh` if it was assigned
(`none` when the script died before the assignment), and the exception
escaping the script, if any. -/
structure RunResult where
  trace : List Event
  gmshFlag : Option Bool
  uncaught : Option PyExc
  deriving DecidableEq, Repr

/-- Argument vector of the download step, line 182 of the script. -/
def wgetArgs : List String := ["wget", "http://www.fwagner.info/mesh.geo"]

/-- Argument vector of the mesh-generation step, line 185 of the script. -/
def gmshArgs : List String := ["gmsh", "-2", "-o", "mesh.msh", "mesh.geo"]

/-- Message printed in the `except OSError` handler, line 188. -/
def notInstalledMsg : String := "Gmsh needs to be installed for this example."

/-- Title of the placeholder figure in the fallback branch, line 198. -/
def fallbackTitle : String := "Gmsh needs to be installed for this example"

/-- One run of the module body (lines 182 to 198 of the script), as a
function of the environment.

Line by line: `subprocess.call(wget ...)` unguarded; then
`try: subprocess.call(gmsh ...); gmsh = True except OSError:
print(...); gmsh = False`; then `if gmsh: readGmsh; pg.show; xlim; ylim
else: figure; title`.  A raised exception aborts the run at that point;
only `OSError` raised by the gmsh invocation is caught. -/
def runScript (env : Env) : RunResult :=
  let tWget : List Event := [Event.call wgetArgs]
  match env.wgetExc with
  | some e => ⟨tWget, none, some e⟩
  | none =>
    let tGmsh : List Event := tWget ++ [Event.call gmshArgs]
    match env.gmshExc with
    | some PyExc.osError =>
      ⟨tGmsh ++ [Event.printMsg notInstalledMsg, Event.figure, Event.title fallbackTitle],
       some false, none⟩
    | some (PyExc.other t) => ⟨tGmsh, none, some (PyExc.other t)⟩
    | none =>
      let tRead : List Event := tGmsh ++ [Event.readGmsh "mesh.msh" true]
      match env.readGmshExc with
      | some e => ⟨tRead, some true, some e⟩
      | none =>
        ⟨tRead ++ [Event.showMesh, Event.xlim 0 50, Event.ylim (-50) 0],
         some true, none⟩

/-- Whether an event is an invocation of the external mesh generator. -/
def isGmshCall : Event → Bool
  | Event.call args => args.head? == some "gmsh"
  | _ => false

/-- Number of mesh-generator invocations in a trace. -/
def countGmshCalls (tr : List Event) : Nat := (tr.filter isGmshCall).length

/-- C1: when the gmsh invocation is reached (the download did not raise),
an `OSError` from it is caught and sets the flag to `false`; whenever the
invocation returns without raising, the flag is set to `true`. -/
theorem flag_tracks_generator_oserror (env : Env) (hw : env.wgetExc = none) :
    (env.gmshExc = some PyExc.osError → (runScript env).gmshFlag = some false) ∧
    (env.gmshExc = none → (runScript env).gmshFlag = some true) := by
  rcases env with ⟨w, we, g, ge, r⟩
  simp only at hw
  subst hw
  constructor
  · intro hg; simp only at hg; subst hg; simp [runScript]
  · intro hg; simp only at hg; subst hg
    cases r <;> simp [runScript]

theorem flag_tracks_generator_oserror_w :
    (runScript ⟨none, 0, some PyExc.osError, 0, none⟩).gmshFlag = some false ∧
    (runScript ⟨none, 0, none, 0, none⟩).gmshFlag = some true :=
  ⟨(flag_tracks_generator_oserror ⟨none, 0, some PyExc.osError, 0, none⟩ rfl).1 rfl,
   (flag_tracks_generator_oserror ⟨none, 0, none, 0, none⟩ rfl).2 rfl⟩

/-- C2: whenever the flag ends up `false`, the fallback path executed
(placeholder figure and explanatory title are in the trace) and
`readGmsh` was never invoked in that run. -/
theorem fallback_when_flag_false (env : Env)
    (h : (runScript env).gmshFlag = some false) :
    Event.figure ∈ (runScript env).trace ∧
    Event.title fallbackTitle ∈ (runScript env).trace ∧
    ∀ f v, Event.readGmsh f v ∉ (runScript env).trace := by
  rcases env with ⟨w, we, g, ge, r⟩
  cases w with
  | some e => simp [runScript] at h
  | none =>
    cases g with
    | none => cases r <;> simp [runScript] at h
    | some e =>
      cases e with
      | osError => simp [runScript]
      | other t => simp [runScript] at h

theorem fallback_when_flag_false_w :
    Event.figure ∈ (runScript ⟨none, 0, some PyExc.osError, 0, none⟩).trace ∧
    Event.title fallbackTitle ∈ (runScript ⟨none, 0, some PyExc.osError, 0, none⟩).trace ∧
    ∀ f v, Event.readGmsh f v ∉ (runScript ⟨none, 0, some PyExc.osError, 0, none⟩).trace :=
  fallback_when_flag_false ⟨none, 0, some PyExc.osError, 0, none⟩ (by decide)

/-- C3: when the generator is available and its invocation returns, the
importer is invoked with exactly the string that follows the `-o` flag in
the generator argument vector. -/
theorem importer_gets_generator_output (env : Env)
    (hw : env.wgetExc = none) (hg : env.gmshExc = none) :
    Event.call gmshArgs ∈ (runScript env).trace ∧
    ∃ fname, gmshArgs.get? 2 = some "-o" ∧ gmshArgs.get? 3 = some fname ∧
      Event.readGmsh fname true ∈ (runScript env).trace := by
  rcases env with ⟨w, we, g, ge, r⟩
  simp only at hw hg
  subst hw; subst hg
  refine ⟨?_, "mesh.msh", rfl, rfl, ?_⟩ <;> cases r <;> simp [runScript]

theorem importer_gets_generator_output_w :
    Event.call gmshArgs ∈ (runScript ⟨none, 0, none, 0, none⟩).trace ∧
    ∃ fname, gmshArgs.get? 2 = some "-o" ∧ gmshArgs.get? 3 = some fname ∧
      Event.readGmsh fname true ∈ (runScript ⟨none, 0, none, 0, none⟩).trace :=
  importer_gets_generator_output ⟨none, 0, none, 0, none⟩ rfl rfl

/-- C4: only an `OSError` from the generator invocation is handled: such
a run ends with no uncaught exception, while any other exception of the
generator invocation, and any exception of the importer (a malformed
output mesh), escapes the script uncaught. -/
theorem only_generator_oserror_caught (env : Env) (hw : env.wgetExc = none) :
    (env.gmshExc = some PyExc.osError → (runScript env).uncaught = none) ∧
    (∀ t, env.gmshExc = some (PyExc.other t) →
      (runScript env).uncaught = some (PyExc.other t)) ∧
    (∀ e, env.gmshExc = none → env.readGmshExc = some e →
      (runScript env).uncaught = some e) := by
  rcases env with ⟨w, we, g, ge, r⟩
  simp only at hw
  subst hw
  refine ⟨?_, ?_, ?_⟩
  · intro hg; simp only at hg; subst hg; simp [runScript]
  · intro t hg; simp only at hg; subst hg; simp [runScript]
  · intro e hg hr; simp only at hg hr; subst hg; subst hr; simp [runScript]

theorem only_generator_oserror_caught_w :
    (runScript ⟨none, 0, some PyExc.osError, 0, none⟩).uncaught = none ∧
    (runScript ⟨none, 0, some (PyExc.other "crash"), 0, none⟩).uncaught =
      some (PyExc.other "crash") ∧
    (runScript ⟨none, 0, none, 0, some (PyExc.other "badMesh")⟩).uncaught =
      some (PyExc.other "badMesh") :=
  ⟨(only_generator_oserror_caught ⟨none, 0, some PyExc.osError, 0, none⟩ rfl).1 rfl,
   (only_generator_oserror_caught ⟨none, 0, some (PyExc.other "crash"), 0, none⟩ rfl).2.1
     "crash" rfl,
   (only_generator_oserror_caught ⟨none, 0, none, 0, some (PyExc.other "badMesh")⟩ rfl).2.2
     (PyExc.other "badMesh") rfl rfl⟩

/-- C5: axis limits are applied only in the success path — any `xlim` or
`ylim` event in the trace carries the bounds 0..50 resp. -50..0 and
belongs to a run where the flag is `true` and nothing escaped; when the
flag ends up `false` the fallback run sets no axis limits; and the
completed success run does set both. -/
theorem axis_limits_only_success (env : Env) :
    (∀ a b, Event.xlim a b ∈ (runScript env).trace →
      a = 0 ∧ b = 50 ∧ (runScript env).gmshFlag = some true ∧
      (runScript env).uncaught = none) ∧
    (∀ a b, Event.ylim a b ∈ (runScript env).trace →
      a = -50 ∧ b = 0 ∧ (runScript env).gmshFlag = some true ∧
      (runScript env).uncaught = none) ∧
    ((runScript env).gmshFlag = some false →
      ∀ a b, Event.xlim a b ∉ (runScript env).trace ∧
        Event.ylim a b ∉ (runScript env).trace) ∧
    (env.wgetExc = none → env.gmshExc = none → env.readGmshExc = none →
      Event.xlim 0 50 ∈ (runScript env).trace ∧
      Event.ylim (-50) 0 ∈ (runScript env).trace) := by
  rcases env with ⟨w, we, g, ge, r⟩
  cases w with
  | some e => simp [runScript]
  | none =>
    cases g with
    | some e => cases e <;> simp [runScript]
    | none =>
      cases r with
      | some e => simp [runScript]
      | none =>
        refine ⟨?_, ?_, ?_, ?_⟩
        · intro a b h; simp [runScript] at h ⊢; exact h
        · intro a b h; simp [runScript] at h ⊢; exact h
        · intro h; simp [runScript] at h
        · intro _ _ _; simp [runScript]

theorem axis_limits_only_success_w :
    Event.xlim 0 50 ∈ (runScript ⟨none, 0, none, 0, none⟩).trace ∧
    Event.ylim (-50) 0 ∈ (runScript ⟨none, 0, none, 0, none⟩).trace :=
  (axis_limits_only_success ⟨none, 0, none, 0, none⟩).2.2.2 rfl rfl rfl

/-- C6: once reached, the external mesh generator is invoked with the
argument vector exactly `["gmsh", "-2", "-o", "mesh.msh", "mesh.geo"]`,
and no generator invocation in the trace carries any other argument
vector. -/
theorem generator_argument_vector (env : Env) (hw : env.wgetExc = none) :
    Event.call gmshArgs ∈ (runScript env).trace ∧
    gmshArgs = ["gmsh", "-2", "-o", "mesh.msh", "mesh.geo"] ∧
    ∀ args, Event.call args ∈ (runScript env).trace →
      isGmshCall (Event.call args) = true → args = gmshArgs := by
  rcases env with ⟨w, we, g, ge, r⟩
  simp only at hw
  subst hw
  refine ⟨?_, rfl, ?_⟩
  · cases g with
    | some e => cases e <;> simp [runScript]
    | none => cases r <;> simp [runScript]
  · intro args hmem hgm
    cases g with
    | some e =>
      cases e <;> simp [runScript] at hmem <;>
        rcases hmem with h | h <;> subst h <;>
          first
          | rfl
          | exact absurd hgm (by decide)
    | none =>
      cases r <;> simp [runScript] at hmem <;>
        rcases hmem with h | h <;> subst h <;>
          first
          | rfl
          | exact absurd hgm (by decide)

theorem generator_argument_vector_w :
    Event.call ["gmsh", "-2", "-o", "mesh.msh", "mesh.geo"] ∈
      (runScript ⟨none, 0, none, 0, none⟩).trace :=
  (generator_argument_vector ⟨none, 0, none, 0, none⟩ rfl).2.1 ▸
    (generator_argument_vector ⟨none, 0, none, 0, none⟩ rfl).1

/-- C7: the steps occur in the order fetch, mesh, import, render: every
trace starts with the download call; the generator call, when present,
comes immediately after it; the importer call, when present, immediately
after that; the mesh rendering, when present, right after the import; and
even the fallback rendering only happens after the generator call. -/
theorem step_order (env : Env) :
    (∃ rest, (runScript env).trace = Event.call wgetArgs :: rest) ∧
    (Event.call gmshArgs ∈ (runScript env).trace →
      ∃ rest, (runScript env).trace =
        Event.call wgetArgs :: Event.call gmshArgs :: rest) ∧
    (∀ f v, Event.readGmsh f v ∈ (runScript env).trace →
      ∃ rest, (runScript env).trace =
        Event.call wgetArgs :: Event.call gmshArgs :: Event.readGmsh f v :: rest) ∧
    (Event.showMesh ∈ (runScript env).trace →
      ∃ rest, (runScript env).trace =
        Event.call wgetArgs :: Event.call gmshArgs ::
          Event.readGmsh "mesh.msh" true :: Event.showMesh :: rest) ∧
    (Event.figure ∈ (runScript env).trace →
      ∃ rest, (runScript env).trace =
        Event.call wgetArgs :: Event.call gmshArgs :: rest ∧ Event.figure ∈ rest) := by
  rcases env with ⟨w, we, g, ge, r⟩
  cases w with
  | some e => simp [runScript, wgetArgs, gmshArgs]
  | none =>
    cases g with
    | some e => cases e <;> simp [runScript]
    | none => cases r <;> simp [runScript]

theorem step_order_w :
    (runScript ⟨none, 0, none, 0, none⟩).trace =
      Event.call wgetArgs :: Event.call gmshArgs ::
        Event.readGmsh "mesh.msh" true :: Event.showMesh ::
        Event.xlim 0 50 :: Event.ylim (-50) 0 :: [] := by
  have h := (step_order ⟨none, 0, none, 0, none⟩).2.2.2.1 (by decide)
  rcases h with ⟨rest, hr⟩
  rw [hr]
  have : rest = Event.xlim 0 50 :: Event.ylim (-50) 0 :: [] := by
    have hc : (runScript ⟨none, 0, none, 0, none⟩).trace =
        Event.call wgetArgs :: Event.call gmshArgs ::
          Event.readGmsh "mesh.msh" true :: Event.showMesh ::
          Event.xlim 0 50 :: Event.ylim (-50) 0 :: [] := by decide
    rw [hc] at hr
    exact (List.cons.injEq _ _ _ _).mp
      ((List.cons.injEq _ _ _ _).mp ((List.cons.injEq _ _ _ _).mp
        ((List.cons.injEq _ _ _ _).mp hr.symm).2).2).2 |>.2
  rw [this]

/-- C8: the generator is invoked at most once per run, and after an
`OSError` from it the remainder of the run is exactly the fallback
display: the diagnostic print, the placeholder figure and its title. -/
theorem at_most_one_generator_call (env : Env) :
    countGmshCalls (runScript env).trace ≤ 1 ∧
    (env.wgetExc = none → env.gmshExc = some PyExc.osError →
      (runScript env).trace =
        [Event.call wgetArgs, Event.call gmshArgs,
         Event.printMsg notInstalledMsg, Event.figure, Event.title fallbackTitle]) := by
  rcases env with ⟨w, we, g, ge, r⟩
  cases w with
  | some e =>
    have ht : (runScript ⟨some e, we, g, ge, r⟩).trace = [Event.call wgetArgs] := rfl
    exact ⟨by rw [ht]; decide, by intro h; simp at h⟩
  | none =>
    cases g with
    | some e =>
      cases e with
      | osError =>
        have ht : (runScript ⟨none, we, some PyExc.osError, ge, r⟩).trace =
            [Event.call wgetArgs, Event.call gmshArgs, Event.printMsg notInstalledMsg,
             Event.figure, Event.title fallbackTitle] := rfl
        exact ⟨by rw [ht]; decide, fun _ _ => ht⟩
      | other t =>
        have ht : (runScript ⟨none, we, some (PyExc.other t), ge, r⟩).trace =
            [Event.call wgetArgs, Event.call gmshArgs] := rfl
        exact ⟨by rw [ht]; decide, by intro _ h; simp at h⟩
    | none =>
      cases r with
      | some e =>
        have ht : (runScript ⟨none, we, none, ge, some e⟩).trace =
            [Event.call wgetArgs, Event.call gmshArgs,
             Event.readGmsh "mesh.msh" true] := rfl
        exact ⟨by rw [ht]; decide, by intro _ h; simp at h⟩
      | none =>
        have ht : (runScript ⟨none, we, none, ge, none⟩).trace =
            [Event.call wgetArgs, Event.call gmshArgs, Event.readGmsh "mesh.msh" true,
             Event.showMesh, Event.xlim 0 50, Event.ylim (-50) 0] := rfl
        exact ⟨by rw [ht]; decide, by intro _ h; simp at h⟩

theorem at_most_one_generator_call_w :
    countGmshCalls (runScript ⟨none, 0, some PyExc.osError, 0, none⟩).trace ≤ 1 ∧
    (runScript ⟨none, 0, some PyExc.osError, 0, none⟩).trace =
      [Event.call wgetArgs, Event.call gmshArgs,
       Event.printMsg notInstalledMsg, Event.figure, Event.title fallbackTitle] :=
  ⟨(at_most_one_generator_call ⟨none, 0, some PyExc.osError, 0, none⟩).1,
   (at_most_one_generator_call ⟨none, 0, some PyExc.osError, 0, none⟩).2 rfl rfl⟩

/-- C9: the flag is `true` whenever the generator invocation returns
without raising, whatever its exit status — in particular the importer is
invoked on `mesh.msh` even when the generator exited with status 1. -/
theorem flag_true_ignores_exit_status (env : Env)
    (hw : env.wgetExc = none) (hg : env.gmshExc = none) :
    (runScript env).gmshFlag = some true ∧
    Event.readGmsh "mesh.msh" true ∈ (runScript env).trace := by
  rcases env with ⟨w, we, g, ge, r⟩
  simp only at hw hg
  subst hw; subst hg
  cases r <;> simp [runScript]

theorem flag_true_ignores_exit_status_w :
    (runScript ⟨none, 0, none, 1, none⟩).gmshFlag = some true ∧
    Event.readGmsh "mesh.msh" true ∈ (runScript ⟨none, 0, none, 1, none⟩).trace :=
  flag_true_ignores_exit_status ⟨none, 0, none, 1, none⟩ rfl rfl

/-- C10: the download step is unguarded — its exit status never blocks
the generator invocation, and any exception it raises (such as an
`OSError` when wget is absent) escapes the script uncaught, aborting the
run right after the download call. -/
theorem download_unguarded (env : Env) :
    (env.wgetExc = none → Event.call gmshArgs ∈ (runScript env).trace) ∧
    (∀ e, env.wgetExc = some e →
      (runScript env).uncaught = some e ∧
      (runScript env).trace = [Event.call wgetArgs]) := by
  rcases env with ⟨w, we, g, ge, r⟩
  constructor
  · intro hw; simp only at hw; subst hw
    cases g with
    | some e => cases e <;> simp [runScript]
    | none => cases r <;> simp [runScript]
  · intro e hw; simp only at hw; subst hw; simp [runScript]

theorem download_unguarded_w :
    (Event.call gmshArgs ∈ (runScript ⟨none, 1, none, 0, none⟩).trace) ∧
    ((runScript ⟨some PyExc.osError, 0, none, 0, none⟩).uncaught =
        some PyExc.osError ∧
      (runScript ⟨some PyExc.osError, 0, none, 0, none⟩).trace =
        [Event.call wgetArgs]) :=
  ⟨(download_unguarded ⟨none, 1, none, 0, none⟩).1 rfl,
   (download_unguarded ⟨some PyExc.osError, 0, none, 0, none⟩).2 PyExc.osError rfl⟩

end GmshExample
